import Mathlib

/-!
Verification of lpscraper: a shallow embedding of `scraper/scraper.go` and `scraper/parser.go`

The Go code talks to the network, the file system and a handful of libraries
(`net/http`, `compress/gzip`, `image/jpeg`, `encoding/json`, `net/url`, `goquery`).
Library calls whose outcome depends on data outside the model (the server, the gzip and
JPEG codecs, the file system, the HTML parser, the JSON decoder, `url.Parse`) are fields
of `Env`; small library functions with a fixed meaning (`Header.Get`, `strings.Replace`,
`fmt.Sprintf`, `filepath.Join`) are definitions. The
control flow of `Image.Download`, `newBodyReader`, `bodyReader.Read`,
`bodyReader.Close`, `lpScraper.Parse`, `Image.UnmarshalJSON` and
`lpScraper.getImageData` is transcribed statement by statement. Effects that the
properties talk about (requests, sleeps, closing a body, decoding, creating a file) are
recorded in a trace of `Event`s. Calls to the loggers are not modelled: they have no
effect on control flow.
-/

namespace LpScraper

/-! ## Data model -/

/-- Go `error` values: `new msg` is built by `errors.New(msg)` inside the package,
`lib msg` is an error returned by a library call. -/
inductive Err where
  | new (msg : String)
  | lib (msg : String)
  deriving DecidableEq, Repr

/-- The fields of `net/url.URL`. -/
structure URL where
  Scheme : String
  Opaque : String
  User : String
  Host : String
  Path : String
  RawPath : String
  ForceQuery : Bool
  RawQuery : String
  Fragment : String
  deriving DecidableEq, Repr

/-- State of a concrete `io.ReadCloser`: the bytes it has still to deliver and whether
`Close` has been called on it. -/
structure ReadCloser where
  data : List Nat
  closed : Bool
  deriving DecidableEq, Repr

/-- The result `(n, err)` of one `Read(p)`, with the `n` bytes stored in `p` spelled out. -/
structure ReadResult where
  bytes : List Nat
  err : Option Err
  deriving DecidableEq, Repr

/-- Go `Read(p)` with `len(p) = n` on a `net/http` response body: an error once the body is
closed, `io.EOF` when nothing is left, otherwise up to `n` bytes. -/
def ReadCloser.Read (rc : ReadCloser) (n : Nat) : ReadResult × ReadCloser :=
  if rc.closed then (⟨[], some (Err.lib "http: read on closed response body")⟩, rc)
  else if n = 0 then (⟨[], none⟩, rc)
  else if rc.data = [] then (⟨[], some (Err.lib "EOF")⟩, rc)
  else (⟨rc.data.take n, none⟩, { rc with data := rc.data.drop n })

/-- Go `Close()` on a `ReadCloser`. -/
def ReadCloser.Close (rc : ReadCloser) : Option Err × ReadCloser :=
  (none, { rc with closed := true })

/-- Go `http.Header`, as the list of its (canonical key, first value) pairs. -/
abbrev Header := List (String × String)

/-- Go `textproto.CanonicalMIMEHeaderKey` on a key made of letters, digits and hyphens: the
first letter and every letter after a hyphen in upper case, the others in lower case. -/
def canonicalKeyChars : Bool → List Char → List Char
  | _, [] => []
  | upper, c :: cs =>
    (if upper then c.toUpper else c.toLower) :: canonicalKeyChars (c == '-') cs

/-- Canonical form of a header key. -/
def CanonicalMIMEHeaderKey (key : String) : String :=
  ⟨canonicalKeyChars true key.data⟩

/-- Go `Header.Get(key)`: the first value stored under the canonical form of `key`, or `""`. -/
def Header.Get (h : Header) (key : String) : String :=
  match h.find? (fun kv => kv.1 = CanonicalMIMEHeaderKey key) with
  | some kv => kv.2
  | none => ""

/-- The fields of `http.Response` the package reads. -/
structure Response where
  StatusCode : Int
  Header : Header
  Body : ReadCloser
  deriving DecidableEq, Repr

/-- A decoded picture (`image.Image`), kept abstract as its pixel data. -/
abbrev Picture := List Nat

/-- Go `type Image struct { URL *url.URL; Quote string }`; a nil `URL` is `none`. -/
structure Image where
  URL : Option URL
  Quote : String
  deriving DecidableEq, Repr

/-- Go `type image struct { URL string (json medium); Quote string (json strapline) }`. -/
structure image where
  URL : String
  Quote : String
  deriving DecidableEq, Repr

/-- Go `type bodyReader struct { r io.ReadCloser; contentEncoding string }`. -/
structure bodyReader where
  r : ReadCloser
  contentEncoding : String
  deriving DecidableEq, Repr

/-- What one pass through the request part of the retry loop meets. -/
inductive Exchange where
  /-- Go `http.NewRequest` returned an error. -/
  | requestError (e : Err)
  /-- Go `client.Do` returned an error: no response. -/
  | noResponse (e : Err)
  /-- Go `client.Do` returned this response. -/
  | response (r : Response)
  deriving DecidableEq, Repr

/-- One node handed to the callback of `Selection.Each`: its attributes. -/
structure Selection where
  attrs : List (String × String)
  deriving DecidableEq, Repr

/-- Go `s.Attr(name)`: the value and whether the attribute exists. -/
def Selection.Attr (s : Selection) (name : String) : Option String :=
  match s.attrs.find? (fun kv => kv.1 = name) with
  | some kv => some kv.2
  | none => none

/-- A parsed `goquery.Document`: `Find selector` lists the matching nodes in document
order. -/
structure Document where
  Find : String → List Selection

/-- Effects recorded while `Image.Download` and `lpScraper.Parse` run. -/
inductive Event where
  /-- Go `client.Do(req)`: a GET for the image URL with the given referer. -/
  | get (u : URL) (referer : String)
  /-- Go `resp.Body.Close()`. -/
  | closeBody
  /-- Go `time.Sleep(d)`, `d` in nanoseconds. -/
  | sleep (d : Nat)
  /-- Go `newBodyReader(resp)` was called. -/
  | newBodyReader
  /-- Go `jpeg.Decode(reader)` was called. -/
  | jpegDecode
  /-- Go `goquery.NewDocumentFromReader(reader)` was called. -/
  | parseHTML
  /-- Go `os.Create(path)` succeeded: the file now exists. -/
  | fileCreated (path : String)
  /-- Go `jpeg.Encode(dst, jpg, quality 100)` was called on the file at `path`. -/
  | jpegEncode (path : String)
  /-- The deferred `reader.Close()` ran. -/
  | closeReader
  deriving DecidableEq, Repr

/-- How a function call ends: by `return err` or by a panic. -/
inductive Result where
  | returned (err : Option Err)
  | panicked (msg : String)
  deriving DecidableEq, Repr

/-- The world outside the package. -/
structure Env where
  /-- What the `n`-th pass (from 0) of the retry loop meets. -/
  attempt : Nat → Exchange
  /-- Go `gzip.NewReader(body)`. -/
  gzipNewReader : ReadCloser → Except Err ReadCloser
  /-- Go `jpeg.Decode(reader)`. -/
  jpegDecode : bodyReader → Except Err Picture
  /-- Go `os.Create(path)`: `none` when the file was created. -/
  osCreate : String → Option Err
  /-- Go `jpeg.Encode(dst, jpg, quality 100)` for the file at the path. -/
  jpegEncode : String → Picture → Option Err
  /-- Go `goquery.NewDocumentFromReader(reader)`. -/
  NewDocumentFromReader : bodyReader → Except Err Document
  /-- Go `json.NewDecoder(bytes.NewBufferString(data)).Decode(&images)`: the slice
  afterwards and the error. The decoder belongs to the Go standard library; how much it
  stores before it reports an error is its business and differs between Go releases. -/
  jsonDecode : String → List (Option Image) → List (Option Image) × Option Err
  /-- Go `json.Unmarshal(data, i)` for a zero `i : image`. -/
  jsonUnmarshal : String → Except Err image
  /-- Go `url.Parse(s)`. -/
  urlParse : String → Except Err URL

/-! ## Constants -/

def DataDir : String := "data"

def maxImageDownloadRetries : Nat := 5

/-- Go `10 * time.Second`, in nanoseconds. -/
def imageDonwloadRetryDelay : Nat := 10 * 1000000000

/-! ## The body reader -/

/-- Go `newBodyReader`. Both callers drop the reader when the error is not nil, so the
pair `(reader, err)` is an `Except`. -/
def newBodyReader (env : Env) (resp : Response) : Except Err bodyReader :=
  if resp.Header.Get "Content-Encoding" = "gzip" then
    match env.gzipNewReader resp.Body with
    | .ok r => .ok { r := r, contentEncoding := "gzip" }
    | .error err => .error err
  else
    .ok { r := resp.Body, contentEncoding := "" }

/-- Go `(*bodyReader).Read`: `return r.r.Read(p)`. -/
def bodyReader.Read (r : bodyReader) (n : Nat) : ReadResult × bodyReader :=
  ((r.r.Read n).1, { r with r := (r.r.Read n).2 })

/-- How `(*bodyReader).Close` ends. -/
inductive CloseResult where
  | returned (err : Option Err) (r : bodyReader)
  | panicked (msg : String)
  deriving DecidableEq, Repr

/-- Go `(*bodyReader).Close`. -/
def bodyReader.Close (r : bodyReader) : CloseResult :=
  if r.contentEncoding = "" then .returned none r
  else if r.contentEncoding = "gzip" then
    .returned (r.r.Close).1 { r with r := (r.r.Close).2 }
  else .panicked "Unreachable"

/-- Go `io.ReadAll`-style draining of a reader with a buffer of `n` bytes: the bytes read up
to the first error, and that error (`none` for `io.EOF`). -/
def bodyReader.drain (n : Nat) : Nat → bodyReader → List Nat × Option Err
  | 0, _ => ([], some (Err.lib "out of fuel"))
  | fuel + 1, r =>
    match (r.Read n).1.err with
    | some e => ((r.Read n).1.bytes, if e = Err.lib "EOF" then none else some e)
    | none =>
      ((r.Read n).1.bytes ++ (bodyReader.drain n fuel (r.Read n).2).1,
        (bodyReader.drain n fuel (r.Read n).2).2)

/-! ## Output file names -/

/-- Go `strings.Replace(s, string(old), string(new), -1)` for one-character `old` and `new`. -/
def stringsReplace (s : String) (old new : Char) : String :=
  ⟨s.data.map (fun c => if c = old then new else c)⟩

/-- Go `filepath.Separator` (the package is modelled on a system whose separator is `/`). -/
def filepathSeparator : Char := '/'

/-- Zero padding on the left up to `width` characters. -/
def zeroPad (width : Nat) (digits : String) : String :=
  ⟨List.replicate (width - digits.length) '0' ++ digits.data⟩

/-- Go `fmt.Sprintf("%04d", n)`: the decimal digits padded with zeros to width 4, the sign of
a negative number first and counted in the width. -/
def Sprintf04d (n : Int) : String :=
  if n < 0 then "-" ++ zeroPad 3 (Nat.repr (-n).toNat) else zeroPad 4 (Nat.repr n.toNat)

/-- Go `filepath.Join(dir, name)` for a non-empty `dir` and a `name` that holds no separator
and is neither `.` nor `..` (always so for `<placeName><index>.jpg`, whose separators have
been replaced): `Clean` then changes nothing and the result is `dir/name`. -/
def filepathJoin (dir name : String) : String :=
  dir ++ "/" ++ name

/-- The destination of `Image.Download`:
`filepath.Join(DataDir, fmt.Sprintf("%s%04d.jpg", placeName, suffix))` with
`placeName := strings.Replace(id, string(filepath.Separator), "_", -1)`. -/
def outputPath (id : String) (suffix : Int) : String :=
  let placeName := stringsReplace id filepathSeparator '_'
  filepathJoin DataDir (placeName ++ Sprintf04d suffix ++ ".jpg")

/-! ## `Image.Download` -/

/-- How the `Retry:` loop is left. -/
inductive LoopExit where
  /-- A `return err` inside the loop (the error is never nil there). -/
  | returned (err : Err)
  /-- By `break Retry` or because `retries < maxImageDownloadRetries` failed; the values
  of `retries` and `resp` at that point. -/
  | done (retries : Nat) (resp : Option Response)
  deriving DecidableEq, Repr

/-- The loop `for ; retries < maxImageDownloadRetries; retries++ { ... }` of
`Image.Download`. The first argument is `maxImageDownloadRetries - retries`, the number of
passes the loop condition still allows; it is 0 exactly when the condition fails. -/
def retryLoop (env : Env) (u : URL) (referer : String) :
    Nat → Nat → Option Response → List Event → LoopExit × List Event
  | 0, retries, resp, tr => (.done retries resp, tr)
  | left + 1, retries, _, tr =>
    match env.attempt retries with
    | .requestError err => (.returned err, tr)
    | .noResponse err => (.returned err, tr ++ [.get u referer])
    | .response resp =>
      if resp.StatusCode = 200 then
        (.done retries (some resp), tr ++ [.get u referer])
      else if resp.StatusCode = 504 then
        retryLoop env u referer left (retries + 1)
          (some { resp with Body := (resp.Body.Close).2 })
          (tr ++ [.get u referer, .closeBody, .sleep imageDonwloadRetryDelay])
      else
        (.returned (Err.new "Bad response code"), tr ++ [.get u referer, .closeBody])

/-- The deferred `reader.Close()` of `Image.Download` and `lpScraper.Parse`, run when the
function returns `err`: its own error is dropped, its panic replaces the return. -/
def deferredClose (reader : bodyReader) (err : Option Err) (tr : List Event) :
    Result × List Event :=
  match reader.Close with
  | .returned _ _ => (.returned err, tr ++ [.closeReader])
  | .panicked msg => (.panicked msg, tr ++ [.closeReader])

/-- Go `Image.Download(suffix, id, referer)`: what it returns and the effects it had,
in order. -/
def Image.Download (env : Env) (img : Image) (suffix : Int) (id : String)
    (referer : String) : Result × List Event :=
  match img.URL with
  | none => (.panicked "invalid memory address or nil pointer dereference", [])
  | some u =>
    match retryLoop env u referer maxImageDownloadRetries 0 none [] with
    | (.returned err, tr) => (.returned (some err), tr)
    | (.done _ none, tr) =>
      (.panicked "invalid memory address or nil pointer dereference", tr ++ [.newBodyReader])
    | (.done retries (some resp), tr) =>
      match newBodyReader env resp with
      | .error err => (.returned (some err), tr ++ [.newBodyReader])
      | .ok reader =>
        let tr := tr ++ [.newBodyReader]
        if resp.Header.Get "content-type" ≠ "image/jpeg" then
          deferredClose reader (some (Err.new "Data not JPEG")) tr
        else
          match env.jpegDecode reader with
          | .error err => deferredClose reader (some err) (tr ++ [.jpegDecode])
          | .ok jpg =>
            let tr := tr ++ [.jpegDecode]
            match env.osCreate (outputPath id suffix) with
            | some err => deferredClose reader (some err) tr
            | none =>
              let tr := tr ++ [.fileCreated (outputPath id suffix)]
              match env.jpegEncode (outputPath id suffix) jpg with
              | some err =>
                deferredClose reader (some err) (tr ++ [.jpegEncode (outputPath id suffix)])
              | none =>
                let tr := tr ++ [.jpegEncode (outputPath id suffix)]
                if retries = maxImageDownloadRetries then
                  deferredClose reader
                    (some (Err.new "Failed to download image due to timeout")) tr
                else
                  deferredClose reader none tr

/-! ## `lpScraper.Parse` -/

/-- Go `type lpScraper struct { url url.URL; images []*Image; pages []string }`; a nil
pointer in `images` is `none`. -/
structure lpScraper where
  url : URL
  images : List (Option Image)
  pages : List String
  deriving DecidableEq, Repr

/-- Go `(*Image).UnmarshalJSON(data)`: the receiver afterwards and the error. -/
def Image.UnmarshalJSON (env : Env) (img : Image) (data : String) : Image × Option Err :=
  match env.jsonUnmarshal data with
  | .error err => (img, some err)
  | .ok i =>
    match env.urlParse i.URL with
    | .error err => (img, some err)
    | .ok URL => ({ img with URL := some { URL with RawQuery := "" } }, none)

/-- The zero value `Image{}`: nil URL, empty quote. -/
def zeroImage : Image := { URL := none, Quote := "" }

/-- The callback of `Each` in `getImageData`, for the `i`-th match `s`. The error of
`Decode(&scr.images)` is only logged, so `scr.images` is whatever the decoder left. -/
def getImageDataEach (env : Env) (scr : lpScraper) (i : Nat) (s : Selection) : lpScraper :=
  if i > 0 then scr
  else
    match s.Attr "data-lp-initial-images" with
    | none => scr
    | some data => { scr with images := (env.jsonDecode data scr.images).1 }

/-- Go `Each` over the matches, from index `i` on. -/
def eachFrom (env : Env) : List Selection → Nat → lpScraper → lpScraper
  | [], _, scr => scr
  | s :: rest, i, scr => eachFrom env rest (i + 1) (getImageDataEach env scr i s)

/-- Go `(*lpScraper).getImageData(webpage)`. -/
def lpScraper.getImageData (env : Env) (scr : lpScraper) (webpage : Document) : lpScraper :=
  eachFrom env (webpage.Find ".slideshow.js-slideshow") 0 scr

/-- Go `(*lpScraper).Parse(resp)`: what it returns, the scraper afterwards and the
effects it had. -/
def lpScraper.Parse (env : Env) (scr : lpScraper) (resp : Response) :
    Result × lpScraper × List Event :=
  if resp.StatusCode ≠ 200 then
    (.returned (some (Err.new "Bad response code")), scr, [])
  else
    match newBodyReader env resp with
    | .error err => (.returned (some err), scr, [.newBodyReader])
    | .ok reader =>
      match env.NewDocumentFromReader reader with
      | .error err =>
        ((deferredClose reader (some err) [.newBodyReader, .parseHTML]).1, scr,
          (deferredClose reader (some err) [.newBodyReader, .parseHTML]).2)
      | .ok doc =>
        ((deferredClose reader none [.newBodyReader, .parseHTML]).1,
          scr.getImageData env doc,
          (deferredClose reader none [.newBodyReader, .parseHTML]).2)

/-! ## Sample worlds used to evaluate the code on concrete inputs -/

/-- A URL with only scheme, host, path and query set. -/
def mkURL (host path query : String) : URL :=
  { Scheme := "https", Opaque := "", User := "", Host := host, Path := path,
    RawPath := "", ForceQuery := false, RawQuery := query, Fragment := "" }

/-- A response with an open body. -/
def mkResponse (status : Int) (header : Header) (body : List Nat) : Response :=
  { StatusCode := status, Header := header, Body := { data := body, closed := false } }

/-- Text of a well-formed image record:
`{"medium":"https://cdn.example/a.jpg?sig=1","strapline":"Big Ben"}`. -/
def goodRecord : String :=
  "\x7b\"medium\":\"https://cdn.example/a.jpg?sig=1\",\"strapline\":\"Big Ben\"\x7d"

/-- Text of an image record whose URL does not parse:
`{"medium":"https://cdn.example/%zz.jpg","strapline":"Tower"}`. -/
def badRecord : String :=
  "\x7b\"medium\":\"https://cdn.example/%zz.jpg\",\"strapline\":\"Tower\"\x7d"

/-- The attribute blob `[goodRecord,badRecord]`. -/
def secondEntryCorrupt : String := "[" ++ goodRecord ++ "," ++ badRecord ++ "]"

/-- The attribute blob `[badRecord]`. -/
def firstEntryCorrupt : String := "[" ++ badRecord ++ "]"

/-- The bytes of the HTML text `<h1>Hi</h1>`. -/
def htmlBody : List Nat := [60, 104, 49, 62, 72, 105, 60, 47, 104, 49, 62]

/-- A world around a server that answers pass `n` with `script n`: `gzip.NewReader`
wants an open body with a ten-byte header that starts with the two magic bytes and the
deflate method byte, `jpeg.Decode` accepts an open reader whose bytes start with the SOI
marker (standing for a complete JPEG stream), the file system lets every file be created
and, unless `diskFull`, written. The page is one slideshow
node whose `data-lp-initial-images` attribute is `attr`. The JSON decoder is given for an
empty slice and the two corrupt sample blobs: it reports the URL error of `badRecord`
and leaves the record decoded before it (its quote empty, as `UnmarshalJSON` leaves it)
and a blank record for `badRecord`; any other text is taken as a syntax error, which
leaves the slice as it is, and a slice that is not empty is outside the sample.
`json.Unmarshal` and `url.Parse` know the two sample records. -/
def sampleEnv (script : Nat → Exchange) (diskFull : Bool) (attr : String) : Env where
  attempt := script
  gzipNewReader := fun body =>
    if body.closed then .error (Err.lib "http: read on closed response body")
    else if body.data = [] then .error (Err.lib "EOF")
    else if body.data.length < 10 then .error (Err.lib "unexpected EOF")
    else if body.data.take 3 = [31, 139, 8] then
      .ok { data := body.data.drop 10, closed := false }
    else .error (Err.lib "gzip: invalid header")
  jpegDecode := fun reader =>
    if reader.r.closed then .error (Err.lib "http: read on closed response body")
    else if reader.r.data.take 2 = [255, 216] then .ok reader.r.data
    else .error (Err.lib "invalid JPEG format: missing SOI marker")
  osCreate := fun _ => none
  jpegEncode := fun _ _ =>
    if diskFull then some (Err.lib "write: no space left on device") else none
  NewDocumentFromReader := fun _ =>
    .ok { Find := fun sel =>
      if sel = ".slideshow.js-slideshow" then
        [{ attrs := [("class", "slideshow js-slideshow"), ("data-lp-initial-images", attr)] }]
      else [] }
  jsonDecode := fun data images =>
    if images ≠ [] then (images, some (Err.lib "sample decoder: slice not empty"))
    else if data = secondEntryCorrupt then
      ([some { URL := some (mkURL "cdn.example" "/a.jpg" ""), Quote := "" }, some zeroImage],
        some (Err.lib "parse \"https://cdn.example/%zz.jpg\": invalid URL escape \"%zz\""))
    else if data = firstEntryCorrupt then
      ([some zeroImage],
        some (Err.lib "parse \"https://cdn.example/%zz.jpg\": invalid URL escape \"%zz\""))
    else ([], some (Err.lib "unexpected end of JSON input"))
  jsonUnmarshal := fun s =>
    if s = goodRecord then
      .ok { URL := "https://cdn.example/a.jpg?sig=1", Quote := "Big Ben" }
    else if s = badRecord then
      .ok { URL := "https://cdn.example/%zz.jpg", Quote := "Tower" }
    else .error (Err.lib "json: cannot unmarshal into Go value of type scraper.image")
  urlParse := fun s =>
    if s = "https://cdn.example/a.jpg?sig=1" then .ok (mkURL "cdn.example" "/a.jpg" "sig=1")
    else .error (Err.lib "parse \"https://cdn.example/%zz.jpg\": invalid URL escape \"%zz\"")

/-- A server that answers 504 (an HTML error page) on the first `k` passes and from then
on 200 with `header` and `body`. -/
def timeoutsThen (k : Nat) (header : Header) (body : List Nat) : Nat → Exchange :=
  fun n =>
    if n < k then .response (mkResponse 504 [("Content-Type", "text/html")] htmlBody)
    else .response (mkResponse 200 header body)

/-- A server that answers 504 on the first `k` passes and from then on `status`. -/
def timeoutsThenStatus (k : Nat) (status : Int) : Nat → Exchange :=
  fun n =>
    if n < k then .response (mkResponse 504 [("Content-Type", "text/html")] htmlBody)
    else .response (mkResponse status [("Content-Type", "text/html")] [])

/-- The image record used in the examples. -/
def sampleImage : Image :=
  { URL := some (mkURL "cdn.example" "/a.jpg" ""), Quote := "" }

/-- A scraper as `NewLpScraper(location)` builds it. -/
def NewLpScraper (location : String) : lpScraper :=
  { url := mkURL "www.lonelyplanet.com" location "", images := [], pages := [] }

/-! ## Trace shapes used in the statements -/

/-- The effects of `k` passes of the retry loop that each met a 504: a GET, the close of
the body and the sleep, `k` times. -/
def timeouts (u : URL) (referer : String) : Nat → List Event
  | 0 => []
  | k + 1 =>
    [.get u referer, .closeBody, .sleep imageDonwloadRetryDelay] ++ timeouts u referer k

theorem count_get_timeouts (u : URL) (referer : String) (k : Nat) :
    (timeouts u referer k).count (Event.get u referer) = k := by
  induction k with
  | zero => simp [timeouts]
  | succ k ih =>
    simp only [timeouts, List.count_append, ih]
    simp [List.count_cons]
    omega

theorem count_sleep_timeouts (u : URL) (referer : String) (k : Nat) :
    (timeouts u referer k).count (Event.sleep imageDonwloadRetryDelay) = k := by
  induction k with
  | zero => simp [timeouts]
  | succ k ih =>
    simp only [timeouts, List.count_append, ih]
    simp [List.count_cons]
    omega

theorem mem_timeouts (u : URL) (referer : String) (k : Nat) (e : Event)
    (h : e ∈ timeouts u referer k) :
    e = Event.get u referer ∨ e = Event.closeBody ∨ e = Event.sleep imageDonwloadRetryDelay := by
  induction k with
  | zero => simp [timeouts] at h
  | succ k ih =>
    simp only [timeouts, List.mem_append, List.mem_cons, List.mem_singleton,
      List.not_mem_nil, or_false] at h
    rcases h with (h | h | h) | h
    · exact Or.inl h
    · exact Or.inr (Or.inl h)
    · exact Or.inr (Or.inr h)
    · exact ih h

/-- After `k` passes that each met a 504 the loop stands at pass `retries + k`, with the
effects of `k` timeouts added to the trace; for `0 < k` the response it holds is the last
504, its body closed. -/
theorem retryLoop_timeouts (env : Env) (u : URL) (referer : String) (k : Nat) :
    ∀ (left retries : Nat) (resp : Option Response) (tr : List Event),
      (∀ i, i < k → ∃ r, env.attempt (retries + i) = .response r ∧ r.StatusCode = 504) →
      ∃ resp', retryLoop env u referer (k + left) retries resp tr
          = retryLoop env u referer left (retries + k) resp' (tr ++ timeouts u referer k)
        ∧ (k = 0 → resp' = resp)
        ∧ (0 < k → ∃ r, env.attempt (retries + k - 1) = .response r ∧ r.StatusCode = 504
            ∧ resp' = some { r with Body := (r.Body.Close).2 }) := by
  induction k with
  | zero =>
    intro left retries resp tr _
    exact ⟨resp, by simp [timeouts], fun _ => rfl, fun h => absurd h (by decide)⟩
  | succ k ih =>
    intro left retries resp tr h
    obtain ⟨r, hr, h504⟩ := h 0 (Nat.succ_pos k)
    rw [Nat.add_zero] at hr
    have h200 : r.StatusCode ≠ 200 := by rw [h504]; decide
    have hrest : ∀ i, i < k →
        ∃ r, env.attempt (retries + 1 + i) = .response r ∧ r.StatusCode = 504 := by
      intro i hi
      have := h (i + 1) (Nat.succ_lt_succ hi)
      rwa [show retries + (i + 1) = retries + 1 + i by omega] at this
    obtain ⟨resp', heq, h0, hpos⟩ := ih left (retries + 1)
      (some { r with Body := (r.Body.Close).2 })
      (tr ++ [.get u referer, .closeBody, .sleep imageDonwloadRetryDelay]) hrest
    refine ⟨resp', ?_, fun h => absurd h (Nat.succ_ne_zero k), fun _ => ?_⟩
    · rw [show k + 1 + left = (k + left) + 1 by omega, retryLoop, hr]
      simp only []
      rw [if_neg h200, if_pos h504, heq, show retries + 1 + k = retries + (k + 1) by omega]
      congr 1
      simp only [timeouts, List.append_assoc]
    · rcases Nat.eq_zero_or_pos k with hk | hk
      · subst hk
        exact ⟨r, by simpa using hr, h504, h0 rfl⟩
      · obtain ⟨r', hr', h504', hresp'⟩ := hpos hk
        refine ⟨r', ?_, h504', hresp'⟩
        rwa [show retries + (k + 1) - 1 = retries + 1 + k - 1 by omega]

/-- A reader built by `newBodyReader` is marked `""` or `"gzip"`. -/
theorem newBodyReader_encoding (env : Env) (resp : Response) (reader : bodyReader)
    (h : newBodyReader env resp = .ok reader) :
    reader.contentEncoding = "" ∨ reader.contentEncoding = "gzip" := by
  unfold newBodyReader at h
  split at h
  · split at h
    · cases h; exact Or.inr rfl
    · cases h
  · cases h; exact Or.inl rfl

/-- The deferred close of a reader built by `newBodyReader` does not panic. -/
theorem deferredClose_of_newBodyReader (env : Env) (resp : Response) (reader : bodyReader)
    (h : newBodyReader env resp = .ok reader) (err : Option Err) (tr : List Event) :
    deferredClose reader err tr = (.returned err, tr ++ [.closeReader]) := by
  rcases newBodyReader_encoding env resp reader h with h' | h'
  · simp [deferredClose, bodyReader.Close, h']
  · simp [deferredClose, bodyReader.Close, h']

/-- The loop left by `break Retry`: `k < maxImageDownloadRetries` timeouts, then a 200. -/
theorem retryLoop_break (env : Env) (u : URL) (referer : String) (k : Nat) (r : Response)
    (hk : k < maxImageDownloadRetries)
    (h504 : ∀ i, i < k → ∃ r', env.attempt i = .response r' ∧ r'.StatusCode = 504)
    (hr : env.attempt k = .response r) (h200 : r.StatusCode = 200) :
    retryLoop env u referer maxImageDownloadRetries 0 none []
      = (.done k (some r), timeouts u referer k ++ [.get u referer]) := by
  have h504' : ∀ i, i < k → ∃ r', env.attempt (0 + i) = .response r' ∧ r'.StatusCode = 504 := by
    intro i hi; simpa using h504 i hi
  obtain ⟨resp', heq, -, -⟩ :=
    retryLoop_timeouts env u referer k (maxImageDownloadRetries - k) 0 none [] h504'
  rw [show k + (maxImageDownloadRetries - k) = maxImageDownloadRetries by omega] at heq
  rw [heq, show maxImageDownloadRetries - k = (maxImageDownloadRetries - k - 1) + 1 by omega,
    retryLoop, Nat.zero_add, hr]
  simp only []
  rw [if_pos h200, List.nil_append]

/-- The loop left by `return`: fewer than `maxImageDownloadRetries` timeouts, then a
status that is neither 200 nor 504. -/
theorem retryLoop_badStatus (env : Env) (u : URL) (referer : String) (k : Nat) (r : Response)
    (hk : k < maxImageDownloadRetries)
    (h504 : ∀ i, i < k → ∃ r', env.attempt i = .response r' ∧ r'.StatusCode = 504)
    (hr : env.attempt k = .response r) (h200 : r.StatusCode ≠ 200)
    (hnot504 : r.StatusCode ≠ 504) :
    retryLoop env u referer maxImageDownloadRetries 0 none []
      = (.returned (Err.new "Bad response code"),
          timeouts u referer k ++ [.get u referer, .closeBody]) := by
  have h504' : ∀ i, i < k → ∃ r', env.attempt (0 + i) = .response r' ∧ r'.StatusCode = 504 := by
    intro i hi; simpa using h504 i hi
  obtain ⟨resp', heq, -, -⟩ :=
    retryLoop_timeouts env u referer k (maxImageDownloadRetries - k) 0 none [] h504'
  rw [show k + (maxImageDownloadRetries - k) = maxImageDownloadRetries by omega] at heq
  rw [heq, show maxImageDownloadRetries - k = (maxImageDownloadRetries - k - 1) + 1 by omega,
    retryLoop, Nat.zero_add, hr]
  simp only []
  rw [if_neg h200, if_neg hnot504, List.nil_append]

/-- The loop left because `retries` reached `maxImageDownloadRetries`: it holds the last
504 response, whose body it has closed. -/
theorem retryLoop_exhausted (env : Env) (u : URL) (referer : String)
    (h504 : ∀ i, i < maxImageDownloadRetries →
      ∃ r', env.attempt i = .response r' ∧ r'.StatusCode = 504) :
    ∃ r, env.attempt (maxImageDownloadRetries - 1) = .response r ∧ r.StatusCode = 504
      ∧ retryLoop env u referer maxImageDownloadRetries 0 none []
        = (.done maxImageDownloadRetries (some { r with Body := (r.Body.Close).2 }),
            timeouts u referer maxImageDownloadRetries) := by
  have h504' : ∀ i, i < maxImageDownloadRetries →
      ∃ r', env.attempt (0 + i) = .response r' ∧ r'.StatusCode = 504 := by
    intro i hi; simpa using h504 i hi
  obtain ⟨resp', heq, -, hpos⟩ :=
    retryLoop_timeouts env u referer maxImageDownloadRetries 0 0 none [] h504'
  obtain ⟨r, hr, hr504, hresp⟩ := hpos (by decide)
  refine ⟨r, by simpa using hr, hr504, ?_⟩
  rw [Nat.add_zero] at heq
  rw [heq, retryLoop, hresp, Nat.zero_add, List.nil_append]

/-! ## Claims on `Image.Download` -/

/-- C9. When pass `n <= 5` (counted from 1) is answered with a status other than 200 and
504, after `n - 1` answers of 504, `Image.Download` returns the error
`Bad response code` at once: it has issued exactly `n` GETs, slept only after the
`n - 1` timeouts, closed the body of the bad response as its last effect, and neither
built a body reader, nor decoded, nor created or written a file. -/
theorem Download_badStatus_immediate (env : Env) (u : URL) (quote : String)
    (suffix : Int) (id referer : String) (n : Nat) (r : Response)
    (hpos : 0 < n) (hn : n ≤ maxImageDownloadRetries)
    (h504 : ∀ i, i < n - 1 → ∃ r', env.attempt i = .response r' ∧ r'.StatusCode = 504)
    (hr : env.attempt (n - 1) = .response r) (h200 : r.StatusCode ≠ 200)
    (hnot504 : r.StatusCode ≠ 504) :
    (Image.Download env ⟨some u, quote⟩ suffix id referer).1
      = .returned (some (Err.new "Bad response code"))
    ∧ (Image.Download env ⟨some u, quote⟩ suffix id referer).2
      = timeouts u referer (n - 1) ++ [.get u referer, .closeBody]
    ∧ (Image.Download env ⟨some u, quote⟩ suffix id referer).2.count (.get u referer) = n
    ∧ (Image.Download env ⟨some u, quote⟩ suffix id referer).2.count
        (.sleep imageDonwloadRetryDelay) = n - 1
    ∧ (∀ e, e ∈ (Image.Download env ⟨some u, quote⟩ suffix id referer).2 →
        e = .get u referer ∨ e = .closeBody ∨ e = .sleep imageDonwloadRetryDelay) := by
  have hk : n - 1 < maxImageDownloadRetries := by omega
  have hrun : Image.Download env ⟨some u, quote⟩ suffix id referer
      = (.returned (some (Err.new "Bad response code")),
          timeouts u referer (n - 1) ++ [.get u referer, .closeBody]) := by
    simp only [Image.Download,
      retryLoop_badStatus env u referer (n - 1) r hk h504 hr h200 hnot504]
  rw [hrun]
  refine ⟨rfl, rfl, ?_, ?_, ?_⟩
  · simp [List.count_append, count_get_timeouts, List.count_cons]
    omega
  · simp [List.count_append, count_sleep_timeouts, List.count_cons]
  · intro e he
    rcases List.mem_append.mp he with he | he
    · exact mem_timeouts u referer (n - 1) e he
    · simp only [List.mem_cons, List.mem_singleton, List.not_mem_nil, or_false] at he
      rcases he with he | he
      · exact Or.inl he
      · exact Or.inr (Or.inl he)

/-- Witness for C9: 504, 504, then 404 on the third pass. -/
theorem Download_badStatus_immediate_witness :
    (Image.Download (sampleEnv (timeoutsThenStatus 2 404) false "") sampleImage 0
        "england" "https://www.lonelyplanet.com/england").1
      = .returned (some (Err.new "Bad response code"))
    ∧ (Image.Download (sampleEnv (timeoutsThenStatus 2 404) false "") sampleImage 0
        "england" "https://www.lonelyplanet.com/england").2.count
        (.get (mkURL "cdn.example" "/a.jpg" "") "https://www.lonelyplanet.com/england") = 3 :=
  have h := Download_badStatus_immediate (sampleEnv (timeoutsThenStatus 2 404) false "")
    (mkURL "cdn.example" "/a.jpg" "") "" 0 "england" "https://www.lonelyplanet.com/england" 3
    (mkResponse 404 [("Content-Type", "text/html")] [])
    (by decide) (by decide)
    (by intro i hi; interval_cases i <;> exact ⟨_, rfl, rfl⟩)
    rfl (by decide) (by decide)
  ⟨h.1, h.2.2.1⟩

/-- C2 (what the code does). When all five passes are answered 504 and the last of these
responses is not gzip-encoded and does not have content type `image/jpeg`,
`Image.Download` goes on to the checks meant for a 200 response and returns
`Data not JPEG`; the test `retries == maxImageDownloadRetries` that yields
`Failed to download image due to timeout` stands after the write and is not reached. -/
theorem Download_exhausted_returns_notJPEG (env : Env) (u : URL) (quote : String)
    (suffix : Int) (id referer : String)
    (h504 : ∀ i, i < maxImageDownloadRetries →
      ∃ r', env.attempt i = .response r' ∧ r'.StatusCode = 504)
    (hplain : ∀ r, env.attempt (maxImageDownloadRetries - 1) = .response r →
      r.Header.Get "Content-Encoding" ≠ "gzip")
    (htype : ∀ r, env.attempt (maxImageDownloadRetries - 1) = .response r →
      r.Header.Get "content-type" ≠ "image/jpeg") :
    Image.Download env ⟨some u, quote⟩ suffix id referer
      = (.returned (some (Err.new "Data not JPEG")),
          timeouts u referer maxImageDownloadRetries ++ [.newBodyReader, .closeReader]) := by
  obtain ⟨r, hr, -, hloop⟩ := retryLoop_exhausted env u referer h504
  have hreader : newBodyReader env { r with Body := (r.Body.Close).2 }
      = .ok { r := (r.Body.Close).2, contentEncoding := "" } := by
    simp only [newBodyReader]
    rw [if_neg (hplain r hr)]
  simp only [Image.Download, hloop, hreader]
  rw [if_pos (htype r hr), deferredClose_of_newBodyReader env _ _ hreader,
    List.append_assoc]
  rfl

/-- Witness for C2: five 504 answers carrying an HTML error page. -/
theorem Download_exhausted_returns_notJPEG_witness :
    Image.Download (sampleEnv (timeoutsThen 5 [] []) false "") sampleImage 0
        "england" "https://www.lonelyplanet.com/england"
      = (.returned (some (Err.new "Data not JPEG")),
          timeouts (mkURL "cdn.example" "/a.jpg" "") "https://www.lonelyplanet.com/england" 5
            ++ [.newBodyReader, .closeReader])
    ∧ (Image.Download (sampleEnv (timeoutsThen 5 [] []) false "") sampleImage 0
        "england" "https://www.lonelyplanet.com/england").1
      ≠ .returned (some (Err.new "Failed to download image due to timeout")) :=
  have h := Download_exhausted_returns_notJPEG (sampleEnv (timeoutsThen 5 [] []) false "")
    (mkURL "cdn.example" "/a.jpg" "") "" 0 "england" "https://www.lonelyplanet.com/england"
    (by intro i hi
        have hi' : i < 5 := hi
        interval_cases i <;> exact ⟨_, rfl, rfl⟩)
    (by intro r hr; cases hr; decide)
    (by intro r hr; cases hr; decide)
  ⟨h, by
    have h1 := congrArg Prod.fst h
    rw [show sampleImage = ⟨some (mkURL "cdn.example" "/a.jpg" ""), ""⟩ from rfl, h1]
    decide⟩

/-- C5 (as stated, refuted). A 200 response with content type `text/html` that announces
`Content-Encoding: gzip` over a body that is no gzip stream: `Image.Download` fails with
the error of `gzip.NewReader`, not with `Data not JPEG`. -/
theorem Download_notJPEG_counterexample :
    (mkResponse 200 [("Content-Type", "text/html"), ("Content-Encoding", "gzip")]
        htmlBody).StatusCode = 200
    ∧ (mkResponse 200 [("Content-Type", "text/html"), ("Content-Encoding", "gzip")]
        htmlBody).Header.Get "content-type" ≠ "image/jpeg"
    ∧ (Image.Download
        (sampleEnv
          (timeoutsThen 0 [("Content-Type", "text/html"), ("Content-Encoding", "gzip")]
            htmlBody)
          false "")
        sampleImage 0 "england" "https://www.lonelyplanet.com/england").1
      = .returned (some (Err.lib "gzip: invalid header"))
    ∧ (Image.Download
        (sampleEnv
          (timeoutsThen 0 [("Content-Type", "text/html"), ("Content-Encoding", "gzip")]
            htmlBody)
          false "")
        sampleImage 0 "england" "https://www.lonelyplanet.com/england").1
      ≠ .returned (some (Err.new "Data not JPEG")) := by
  decide

/-- C5 (amended). For a 200 response (after `k < 5` timeouts) whose content type is not
`image/jpeg`, `Image.Download` never calls the JPEG decoder, and it fails with
`Data not JPEG` whenever the body reader can be built, that is when `Content-Encoding`
is not `gzip` or `gzip.NewReader` accepts the body; when `Content-Encoding` is `gzip` and
`gzip.NewReader` fails, it returns that error instead. -/
theorem Download_notJPEG (env : Env) (u : URL) (quote : String)
    (suffix : Int) (id referer : String) (k : Nat) (r : Response)
    (hk : k < maxImageDownloadRetries)
    (h504 : ∀ i, i < k → ∃ r', env.attempt i = .response r' ∧ r'.StatusCode = 504)
    (hr : env.attempt k = .response r) (h200 : r.StatusCode = 200)
    (htype : r.Header.Get "content-type" ≠ "image/jpeg") :
    Event.jpegDecode ∉ (Image.Download env ⟨some u, quote⟩ suffix id referer).2
    ∧ (r.Header.Get "Content-Encoding" ≠ "gzip" →
        (Image.Download env ⟨some u, quote⟩ suffix id referer).1
          = .returned (some (Err.new "Data not JPEG")))
    ∧ (∀ z, env.gzipNewReader r.Body = .ok z →
        (Image.Download env ⟨some u, quote⟩ suffix id referer).1
          = .returned (some (Err.new "Data not JPEG")))
    ∧ (∀ e, r.Header.Get "Content-Encoding" = "gzip" → env.gzipNewReader r.Body = .error e →
        (Image.Download env ⟨some u, quote⟩ suffix id referer).1 = .returned (some e)) := by
  have hloop := retryLoop_break env u referer k r hk h504 hr h200
  have hnodecode : ∀ tail : List Event, Event.jpegDecode ∉ tail →
      Event.jpegDecode ∉ timeouts u referer k ++ [.get u referer] ++ tail := by
    intro tail htail hmem
    rcases List.mem_append.mp hmem with h | h
    · rcases List.mem_append.mp h with h | h
      · rcases mem_timeouts u referer k _ h with h | h | h <;> cases h
      · simp at h
    · exact htail h
  cases hnb : newBodyReader env r with
  | error e =>
    have hrun : Image.Download env ⟨some u, quote⟩ suffix id referer
        = (.returned (some e), timeouts u referer k ++ [.get u referer] ++ [.newBodyReader]) := by
      simp only [Image.Download, hloop, hnb]
    rw [hrun]
    refine ⟨hnodecode _ (by simp), ?_, ?_, ?_⟩
    · intro hplain
      simp [newBodyReader, hplain] at hnb
    · intro z hz
      by_cases hgz : r.Header.Get "Content-Encoding" = "gzip"
      · simp [newBodyReader, hgz, hz] at hnb
      · simp [newBodyReader, hgz] at hnb
    · intro e' hgz he'
      simp only [newBodyReader, hgz, he', if_true] at hnb
      cases hnb
      rfl
  | ok reader =>
    have hrun : Image.Download env ⟨some u, quote⟩ suffix id referer
        = (.returned (some (Err.new "Data not JPEG")),
            timeouts u referer k ++ [.get u referer] ++ [.newBodyReader, .closeReader]) := by
      simp only [Image.Download, hloop, hnb]
      rw [if_pos htype, deferredClose_of_newBodyReader env r reader hnb, List.append_assoc]
      rfl
    rw [hrun]
    refine ⟨hnodecode _ (by simp), fun _ => rfl, fun _ _ => rfl, ?_⟩
    intro e' hgz he'
    simp [newBodyReader, hgz, he'] at hnb

/-- Witness for C5: an HTML page served with status 200 and no content encoding. -/
theorem Download_notJPEG_witness :
    Event.jpegDecode ∉
      (Image.Download
        (sampleEnv (timeoutsThen 1 [("Content-Type", "text/html")] htmlBody) false "")
        sampleImage 0 "england" "https://www.lonelyplanet.com/england").2
    ∧ (Image.Download
        (sampleEnv (timeoutsThen 1 [("Content-Type", "text/html")] htmlBody) false "")
        sampleImage 0 "england" "https://www.lonelyplanet.com/england").1
      = .returned (some (Err.new "Data not JPEG")) :=
  have h := Download_notJPEG
    (sampleEnv (timeoutsThen 1 [("Content-Type", "text/html")] htmlBody) false "")
    (mkURL "cdn.example" "/a.jpg" "") "" 0 "england" "https://www.lonelyplanet.com/england" 1
    (mkResponse 200 [("Content-Type", "text/html")] htmlBody)
    (by decide)
    (by intro i hi; interval_cases i; exact ⟨_, rfl, rfl⟩)
    rfl rfl (by decide)
  ⟨h.1, h.2.1 (by decide)⟩

/-- Matches after the first are skipped by the callback of `Each`. -/
theorem eachFrom_later (env : Env) (rest : List Selection) :
    ∀ (i : Nat) (scr : lpScraper), eachFrom env rest (i + 1) scr = scr := by
  induction rest with
  | nil => intro i scr; rfl
  | cons s rest ih =>
    intro i scr
    simp only [eachFrom, getImageDataEach, Nat.succ_pos, if_true, gt_iff_lt]
    exact ih (i + 1) scr

/-- C7 (what the code does). For a 200 page whose body reader and HTML parse succeed and
whose first slideshow element carries a `data-lp-initial-images` attribute, `Parse`
returns nil and the image list afterwards is exactly the slice the JSON decoder left,
also when the decoder reported an error: `getImageData` only logs that error and never
empties the list, so the list is not empty whenever the decoder had stored something
before it failed. -/
theorem Parse_keeps_rejected_decode (env : Env) (scr : lpScraper) (resp : Response)
    (reader : bodyReader) (doc : Document) (s : Selection) (rest : List Selection)
    (data : String)
    (h200 : resp.StatusCode = 200)
    (hreader : newBodyReader env resp = .ok reader)
    (hdoc : env.NewDocumentFromReader reader = .ok doc)
    (hfind : doc.Find ".slideshow.js-slideshow" = s :: rest)
    (hattr : s.Attr "data-lp-initial-images" = some data) :
    (lpScraper.Parse env scr resp).1 = .returned none
    ∧ (lpScraper.Parse env scr resp).2.1.images = (env.jsonDecode data scr.images).1
    ∧ (∀ e, (env.jsonDecode data scr.images).2 = some e →
        (env.jsonDecode data scr.images).1 ≠ [] →
        (lpScraper.Parse env scr resp).1 = .returned none
        ∧ (lpScraper.Parse env scr resp).2.1.images ≠ []) := by
  have hstatus : ¬ resp.StatusCode ≠ 200 := not_not.mpr h200
  have hrun : lpScraper.Parse env scr resp
      = (.returned none,
          { scr with images := (env.jsonDecode data scr.images).1 },
          [.newBodyReader, .parseHTML, .closeReader]) := by
    simp only [lpScraper.Parse, if_neg hstatus, hreader, hdoc,
      deferredClose_of_newBodyReader env resp reader hreader, lpScraper.getImageData, hfind,
      eachFrom, eachFrom_later, getImageDataEach, hattr, gt_iff_lt, Nat.lt_irrefl, if_false,
      List.cons_append, List.nil_append]
  rw [hrun]
  exact ⟨rfl, rfl, fun _ _ h => ⟨rfl, h⟩⟩

/-- Witness for C7: on a new scraper, the blob `[goodRecord,badRecord]`, whose second
record has a URL that does not parse, leaves two entries in the image list, the second a
blank record with a nil URL on which `Image.Download` panics. -/
theorem Parse_keeps_rejected_decode_witness :
    (lpScraper.Parse (sampleEnv (timeoutsThen 0 [] []) false secondEntryCorrupt)
        (NewLpScraper "england") (mkResponse 200 [] htmlBody)).1 = .returned none
    ∧ (lpScraper.Parse (sampleEnv (timeoutsThen 0 [] []) false secondEntryCorrupt)
        (NewLpScraper "england") (mkResponse 200 [] htmlBody)).2.1.images
      = [some { URL := some (mkURL "cdn.example" "/a.jpg" ""), Quote := "" },
          some { URL := none, Quote := "" }]
    ∧ (lpScraper.Parse (sampleEnv (timeoutsThen 0 [] []) false secondEntryCorrupt)
        (NewLpScraper "england") (mkResponse 200 [] htmlBody)).2.1.images ≠ []
    ∧ (Image.Download (sampleEnv (timeoutsThen 0 [] []) false secondEntryCorrupt)
        { URL := none, Quote := "" } 1 "england" "https://www.lonelyplanet.com/england").1
      = .panicked "invalid memory address or nil pointer dereference" :=
  have h := Parse_keeps_rejected_decode
    (sampleEnv (timeoutsThen 0 [] []) false secondEntryCorrupt)
    (NewLpScraper "england") (mkResponse 200 [] htmlBody)
    { r := { data := htmlBody, closed := false }, contentEncoding := "" }
    { Find := fun sel =>
        if sel = ".slideshow.js-slideshow" then
          [{ attrs := [("class", "slideshow js-slideshow"),
              ("data-lp-initial-images", secondEntryCorrupt)] }]
        else [] }
    { attrs := [("class", "slideshow js-slideshow"),
        ("data-lp-initial-images", secondEntryCorrupt)] }
    [] secondEntryCorrupt rfl rfl rfl rfl rfl
  ⟨h.1, h.2.1,
    (h.2.2 (Err.lib "parse \"https://cdn.example/%zz.jpg\": invalid URL escape \"%zz\"")
      rfl (by decide)).2,
    rfl⟩

/-! ## Claims on the output file name -/

/-- For an index between 0 and 9999 the `%04d` field is exactly four characters long. -/
theorem Sprintf04d_length (n : Int) (h0 : 0 ≤ n) (h : n < 10000) :
    (Sprintf04d n).data.length = 4 := by
  have hrepr : (Nat.repr n.toNat).length ≤ 4 :=
    Nat.repr_length n.toNat 4 (by decide) (by omega)
  have hneg : ¬ n < 0 := not_lt.mpr h0
  simp only [Sprintf04d, if_neg hneg, zeroPad, List.length_append, List.length_replicate]
  simp only [String.length] at hrepr
  simp only [String.length]
  omega

/-- C4 (as stated, refuted). Two distinct page identifiers that differ only in `/` against
`_` get the same output path at the same index, and so do `a` at index 10000 and `a1` at
index 0, where the index outgrows its four digits. -/
theorem outputPath_collision_counterexample :
    ("england/london" : String) ≠ "england_london"
    ∧ outputPath "england/london" 0 = outputPath "england_london" 0
    ∧ ("a" : String) ≠ "a1"
    ∧ outputPath "a" 10000 = outputPath "a1" 0 := by
  decide

/-- C4 (amended). The output paths built for `(id1, i)` and `(id2, j)` differ whenever
the two identifiers still differ after every `/` has been replaced by `_`, and the
indices are equal or both between 0 and 9999. -/
theorem outputPath_injective (id1 id2 : String) (i j : Int)
    (hne : stringsReplace id1 filepathSeparator '_' ≠ stringsReplace id2 filepathSeparator '_')
    (hidx : i = j ∨ (0 ≤ i ∧ i < 10000 ∧ 0 ≤ j ∧ j < 10000)) :
    outputPath id1 i ≠ outputPath id2 j := by
  intro heq
  apply hne
  have hdata := congrArg String.data heq
  simp only [outputPath, filepathJoin, String.data_append] at hdata
  have hname := List.append_cancel_right (List.append_cancel_left hdata)
  have hlen : (Sprintf04d i).data.length = (Sprintf04d j).data.length := by
    rcases hidx with hij | ⟨hi0, hi, hj0, hj⟩
    · rw [hij]
    · rw [Sprintf04d_length i hi0 hi, Sprintf04d_length j hj0 hj]
  exact String.ext (List.append_inj' hname hlen).1

/-- Witness for C4: `england` and `england/london`, both at index 0. -/
theorem outputPath_injective_witness :
    outputPath "england" 0 ≠ outputPath "england/london" 0 :=
  outputPath_injective "england" "england/london" 0 0 (by decide) (Or.inl rfl)

/-! ## Claims on the body reader -/

/-- Draining an open pass-through reader with a buffer of `n > 0` bytes delivers the
bytes of the underlying body and ends on `io.EOF`. -/
theorem drain_passthrough (n : Nat) (hn : 0 < n) (enc : String) :
    ∀ (fuel : Nat) (b : ReadCloser), b.closed = false → b.data.length < fuel →
      bodyReader.drain n fuel { r := b, contentEncoding := enc } = (b.data, none) := by
  intro fuel
  induction fuel with
  | zero => intro b _ h; exact absurd h (Nat.not_lt_zero _)
  | succ fuel ih =>
    intro b hopen hlen
    have hn0 : n ≠ 0 := Nat.pos_iff_ne_zero.mp hn
    by_cases hdata : b.data = []
    · simp [bodyReader.drain, bodyReader.Read, ReadCloser.Read, hopen, hn0, hdata]
    · have hrest : (b.data.drop n).length < fuel := by
        have hpos : 0 < b.data.length := List.length_pos.mpr hdata
        rw [List.length_drop]
        omega
      have hstep := ih { data := b.data.drop n, closed := false } rfl hrest
      simp only [bodyReader.drain, bodyReader.Read, ReadCloser.Read, hopen, hn0, hdata,
        if_false, Bool.false_eq_true, hstep]
      simp

/-- C10. For a response whose `Content-Encoding` is anything but exactly `gzip`,
`newBodyReader` returns no error and a reader over the raw body itself: each `Read`
returns what `Read` on the raw body returns and leaves the raw body in the same state,
draining the reader of an open body yields exactly the bytes of the body, and `Close`
returns nil without touching the raw body (it stays open if it was) and without reaching
the `Unreachable` panic. -/
theorem newBodyReader_passthrough (env : Env) (resp : Response)
    (h : resp.Header.Get "Content-Encoding" ≠ "gzip") :
    ∃ reader, newBodyReader env resp = .ok reader
      ∧ reader.r = resp.Body
      ∧ (∀ n, (reader.Read n).1 = (resp.Body.Read n).1
          ∧ (reader.Read n).2.r = (resp.Body.Read n).2
          ∧ (reader.Read n).2.contentEncoding = reader.contentEncoding)
      ∧ (resp.Body.closed = false → ∀ n, 0 < n →
          reader.drain n (resp.Body.data.length + 1) = (resp.Body.data, none))
      ∧ reader.Close = .returned none reader
      ∧ (∀ n, (reader.Read n).2.Close = .returned none (reader.Read n).2) := by
  refine ⟨{ r := resp.Body, contentEncoding := "" }, ?_, rfl, fun n => ⟨rfl, rfl, rfl⟩, ?_,
    ?_, fun n => ?_⟩
  · simp only [newBodyReader]
    rw [if_neg h]
  · intro hopen n hn
    exact drain_passthrough n hn "" _ resp.Body hopen (Nat.lt_succ_self _)
  · simp [bodyReader.Close]
  · simp [bodyReader.Close, bodyReader.Read]

/-- Witness for C10: a response that announces `Content-Encoding: deflate`. -/
theorem newBodyReader_passthrough_witness :
    ∃ reader,
      newBodyReader (sampleEnv (timeoutsThen 0 [] []) false "")
          (mkResponse 200 [("Content-Encoding", "deflate")] [1, 2, 3]) = .ok reader
      ∧ reader.drain 2 4 = ([1, 2, 3], none)
      ∧ reader.Close = .returned none reader :=
  match newBodyReader_passthrough (sampleEnv (timeoutsThen 0 [] []) false "")
      (mkResponse 200 [("Content-Encoding", "deflate")] [1, 2, 3]) (by decide) with
  | ⟨reader, hnew, _, _, hdrain, hclose, _⟩ =>
    ⟨reader, hnew, hdrain rfl 2 (by decide), hclose⟩

/-! ## Claims on `lpScraper.Parse` and `Image.UnmarshalJSON` -/

/-- C8. For a page response whose status code is not 200, `Parse` returns
`Bad response code`, has no effect at all (no body reader is built, the body is not read
as HTML) and leaves the scraper, its image list included, as it was. -/
theorem Parse_badStatus (env : Env) (scr : lpScraper) (resp : Response)
    (h : resp.StatusCode ≠ 200) :
    (lpScraper.Parse env scr resp).1 = .returned (some (Err.new "Bad response code"))
    ∧ (lpScraper.Parse env scr resp).2.2 = []
    ∧ Event.newBodyReader ∉ (lpScraper.Parse env scr resp).2.2
    ∧ Event.parseHTML ∉ (lpScraper.Parse env scr resp).2.2
    ∧ (lpScraper.Parse env scr resp).2.1 = scr
    ∧ (lpScraper.Parse env scr resp).2.1.images = scr.images := by
  have hrun : lpScraper.Parse env scr resp
      = (.returned (some (Err.new "Bad response code")), scr, []) := by
    simp only [lpScraper.Parse]
    rw [if_pos h]
  rw [hrun]
  exact ⟨rfl, rfl, List.not_mem_nil _, List.not_mem_nil _, rfl, rfl⟩

/-- Witness for C8: a 503 page handed to a scraper that already holds an image. -/
theorem Parse_badStatus_witness :
    (lpScraper.Parse (sampleEnv (timeoutsThen 0 [] []) false "")
        { NewLpScraper "england" with images := [some sampleImage] }
        (mkResponse 503 [] [])).1 = .returned (some (Err.new "Bad response code"))
    ∧ (lpScraper.Parse (sampleEnv (timeoutsThen 0 [] []) false "")
        { NewLpScraper "england" with images := [some sampleImage] }
        (mkResponse 503 [] [])).2.1.images = [some sampleImage] :=
  have h := Parse_badStatus (sampleEnv (timeoutsThen 0 [] []) false "")
    { NewLpScraper "england" with images := [some sampleImage] } (mkResponse 503 [] [])
    (by decide)
  ⟨h.1, h.2.2.2.2.2⟩

/-- C6 (what the code does). When `json.Unmarshal` decodes the record into
`image{URL: medium, Quote: strapline}` and `url.Parse` accepts `medium`,
`UnmarshalJSON` returns nil and stores the parsed URL with `RawQuery` emptied, but it
never copies `i.Quote`: the `Quote` of the receiver is what it was before the call. -/
theorem UnmarshalJSON_drops_strapline (env : Env) (img : Image) (data : String)
    (i : image) (URL : URL)
    (hjson : env.jsonUnmarshal data = .ok i) (hurl : env.urlParse i.URL = .ok URL) :
    Image.UnmarshalJSON env img data
      = ({ URL := some { URL with RawQuery := "" }, Quote := img.Quote }, none) := by
  simp only [Image.UnmarshalJSON, hjson, hurl]

/-- Witness for C6: the record with strapline `Big Ben`, decoded into a zero `Image`,
ends with an empty `Quote`. -/
theorem UnmarshalJSON_drops_strapline_witness :
    Image.UnmarshalJSON (sampleEnv (timeoutsThen 0 [] []) false "")
        { URL := none, Quote := "" } goodRecord
      = ({ URL := some (mkURL "cdn.example" "/a.jpg" ""), Quote := "" }, none)
    ∧ (Image.UnmarshalJSON (sampleEnv (timeoutsThen 0 [] []) false "")
        { URL := none, Quote := "" } goodRecord).1.Quote ≠ "Big Ben" :=
  have h := UnmarshalJSON_drops_strapline (sampleEnv (timeoutsThen 0 [] []) false "")
    { URL := none, Quote := "" } goodRecord
    { URL := "https://cdn.example/a.jpg?sig=1", Quote := "Big Ben" }
    (mkURL "cdn.example" "/a.jpg" "sig=1") rfl rfl
  ⟨h, by rw [h]; decide⟩

end LpScraper
